import Mathlib

/-!
Shallow embedding of the Digital Signage CMS core (src/app.py).

The backing MongoDB collections are modelled as association lists kept in
insertion order (Mongo natural order for these workloads):
* `content` — the content registry (`content_collection`), keyed by ObjectId,
  modelled as `Nat`;
* `screens` — the screen registry (`screens_collection`), keyed by the
  operator-supplied string id, each record holding `assigned_content_id`;
* `blobs` — the filenames present in the upload folder on disk.

Route handlers become pure functions `DB → args → DB × result`; flash
messages and JSON responses are modelled explicitly so that claims about
user-visible messages can be stated.
-/

namespace Signage

abbrev ContentId := Nat

structure ContentItem where
  filename : String
  filepath : String
  mimetype : String
  upload_date : Nat
deriving DecidableEq

/-- One document of `screens_collection`: `_id` and `assigned_content_id`. -/
abbrev ScreenRec := String × Option ContentId

structure DB where
  content : List (ContentId × ContentItem)
  screens : List ScreenRec
  blobs : List String
deriving DecidableEq

/-- `content_collection.find_one(\x7b'_id': obj_id\x7d)`. -/
def findContent (db : DB) (cid : ContentId) : Option ContentItem :=
  (db.content.find? (fun p => p.1 == cid)).map Prod.snd

/-- `screens_collection.find_one(\x7b'_id': screen_id\x7d)` on a raw screen list:
`some a` means the screen document exists with `assigned_content_id = a`. -/
def lookupScreen (screens : List ScreenRec) (sid : String) : Option (Option ContentId) :=
  (screens.find? (fun p => p.1 == sid)).map Prod.snd

def findScreen (db : DB) (sid : String) : Option (Option ContentId) :=
  lookupScreen db.screens sid

/-- `screens_collection.count_documents(\x7b'assigned_content_id': obj_id\x7d)`
(app.py line 118). -/
def countAssignedTo (db : DB) (cid : ContentId) : Nat :=
  (db.screens.filter (fun s => s.2 == some cid)).length

/-- `delete_one`: removes the first document matching the predicate. -/
def deleteOne (p : α → Bool) : List α → List α
  | [] => []
  | x :: xs => if p x then xs else x :: deleteOne p xs

/-- Outcome of the `delete_content` route (app.py lines 109-135); each
constructor corresponds to one `flash(...)` call. -/
inductive DeleteContentResult where
  | contentInUse (count : Nat)
  | deleted
  | notFound
deriving DecidableEq

/-- The flash message texts of `delete_content`. -/
def deleteContentFlash : DeleteContentResult → String
  | .contentInUse n =>
      "Cannot delete content: It is currently assigned to " ++ toString n ++ " screen(s)."
  | .deleted => "Content deleted successfully."
  | .notFound => "Content not found."

/-- `delete_content` (app.py lines 109-135), after the ObjectId parse has
succeeded: count referencing screens; if nonzero flash the in-use message and
mutate nothing; otherwise look the record up, and when present remove the blob
from disk and delete the record. -/
def delete_content (db : DB) (cid : ContentId) : DB × DeleteContentResult :=
  let screen_count := countAssignedTo db cid
  if screen_count > 0 then
    (db, .contentInUse screen_count)
  else
    match findContent db cid with
    | some item =>
        ({ db with
            blobs := db.blobs.erase item.filename,
            content := deleteOne (fun p => p.1 == cid) db.content },
         .deleted)
    | none => (db, .notFound)

/-- `update_one(\x7b'_id': sid\x7d, \x7b'$set': ...\x7d, upsert=True)`: set the field on
the first matching document, inserting a fresh document when none matches. -/
def upsertScreen : List ScreenRec → String → Option ContentId → List ScreenRec
  | [], sid, v => [(sid, v)]
  | s :: ss, sid, v => if s.1 == sid then (sid, v) :: ss else s :: upsertScreen ss sid v

/-- Outcome of the `assign_content` route (app.py lines 168-216); each
constructor corresponds to one `flash(...)` call of the verify block. -/
inductive AssignResult where
  | assigned (sid : String)
  | unassigned (sid : String)
  | verificationFailed (sid : String)
  | screenMissing (sid : String)
deriving DecidableEq

/-- The verify-after-write block of `assign_content` (app.py lines 199-214):
`stored` is the re-read document's `assigned_content_id` (or `none` if the
re-read found no document); `content_id` is the parsed form value, `none`
standing for the empty string. -/
def verifyAssign (sid : String) (content_id : Option ContentId)
    (stored : Option (Option ContentId)) : AssignResult :=
  match stored with
  | some v =>
      if content_id.isSome && (v == content_id) then .assigned sid
      else if content_id.isNone && (v == none) then .unassigned sid
      else .verificationFailed sid
  | none => .screenMissing sid

/-- `assign_content` (app.py lines 168-216), after the ObjectId parse has
succeeded: upsert the screen document setting `assigned_content_id`, then
re-read and verify. -/
def assign_content (db : DB) (sid : String) (content_id : Option ContentId) :
    DB × AssignResult :=
  let screens2 := upsertScreen db.screens sid content_id
  ({ db with screens := screens2 }, verifyAssign sid content_id (lookupScreen screens2 sid))

/-- `delete_screen` (app.py lines 219-223). -/
def delete_screen (db : DB) (sid : String) : DB × String :=
  ({ db with screens := deleteOne (fun s => s.1 == sid) db.screens },
   "Screen " ++ sid ++ " deleted.")

/-- The `content` object of the JSON response of `/api/screen/<id>`. -/
structure ContentPayload where
  content_id : String
  filename : String
  url : String
  mimetype : String
deriving DecidableEq

/-- The JSON response of `/api/screen/<id>`: `message` is present only in the
branches that set it. -/
structure ApiResponse where
  screen_id : String
  content : Option ContentPayload
  message : Option String
deriving DecidableEq

/-- `url_for('static', filename='uploads/...', _external=True)`. -/
def mediaUrl (filename : String) : String :=
  "http://host/static/uploads/" ++ filename

/-- `get_screen_content` (app.py lines 229-272): look the screen up; if absent,
auto-register it with `assigned_content_id = None`; if present and assigned,
resolve the content, reporting a warning when the reference dangles. -/
def get_screen_content (db : DB) (sid : String) : DB × ApiResponse :=
  match findScreen db sid with
  | some assigned_content_id =>
      match assigned_content_id with
      | some cid =>
          match findContent db cid with
          | some item =>
              (db, { screen_id := sid,
                     content := some { content_id := toString cid,
                                       filename := item.filename,
                                       url := mediaUrl item.filename,
                                       mimetype := item.mimetype },
                     message := none })
          | none =>
              (db, { screen_id := sid, content := none,
                     message := some "Assigned content not found. Content may have been deleted." })
      | none =>
          (db, { screen_id := sid, content := none,
                 message := some "No content assigned yet." })
  | none =>
      ({ db with screens := db.screens ++ [(sid, none)] },
       { screen_id := sid, content := none,
         message := some "Screen registered. No content assigned yet." })

/-- The sort key relation of `content_collection.find().sort("upload_date", -1)`
(app.py line 40): descending `upload_date`. -/
def contentGe (a b : ContentId × ContentItem) : Prop :=
  b.2.upload_date ≤ a.2.upload_date

instance : DecidableRel contentGe :=
  fun a b => Nat.decLe b.2.upload_date a.2.upload_date

instance : IsTotal (ContentId × ContentItem) contentGe :=
  ⟨fun a b => Nat.le_total b.2.upload_date a.2.upload_date⟩

instance : IsTrans (ContentId × ContentItem) contentGe :=
  ⟨fun _ _ _ hab hbc => Nat.le_trans hbc hab⟩

/-- The contract of `content_collection.find().sort("upload_date", -1)`
(app.py line 40): MongoDB returns the documents in some order sorted by
`upload_date` descending, but guarantees no particular relative order for
documents whose `upload_date` values are equal — the sort is not stable and the
route supplies no tiebreaker field. A list is an admissible content listing iff
it is a permutation of the collection that is sorted descending by
`upload_date`. -/
def isContentListing (db : DB) (out : List (ContentId × ContentItem)) : Prop :=
  out.Perm db.content ∧ List.Sorted contentGe out

instance (db : DB) (out : List (ContentId × ContentItem)) :
    Decidable (isContentListing db out) :=
  inferInstanceAs (Decidable (And _ _))

/-- A BSON value appearing in a projected aggregation row. -/
inductive BVal where
  | strV (s : String)
  | oidV (c : ContentId)
  | nullV
deriving DecidableEq

/-- A projected aggregation row: field name / value pairs in projection order;
a missing field is simply absent. -/
abbrev Row := List (String × BVal)

/-- The projected `assigned_content_id` field: the stored value, `null` when
the screen has none assigned. -/
def assignedField : Option ContentId → BVal
  | some c => .oidV c
  | none => .nullV

/-- The `$lookup`/`$unwind` stages shared verbatim by the two pipelines: join
`assigned_content_id` against `content`; with `preserveNullAndEmptyArrays` an
unmatched (absent or dangling) reference leaves `assigned_content` missing, so
the projected `filename` field is omitted. -/
def joinFilename (db : DB) : Option ContentId → List (String × BVal)
  | some cid =>
      match findContent db cid with
      | some item => [("filename", .strV item.filename)]
      | none => []
  | none => []

/-- The `$project` stage of `index` (app.py lines 63-70): `'_id': 0` excludes
the raw key; projected fields are `id`, `assigned_content_id`, `filename`. -/
def indexScreenRow (db : DB) (s : ScreenRec) : Row :=
  [("id", .strV s.1), ("assigned_content_id", assignedField s.2)] ++ joinFilename db s.2

/-- The `$project` stage of `manage_screens` (app.py lines 156-162): `_id` is
not excluded, so Mongo includes it by default, ahead of the projected fields
`id`, `assigned_content_id`, `filename`. -/
def manageScreenRow (db : DB) (s : ScreenRec) : Row :=
  ("_id", .strV s.1) ::
    ([("id", .strV s.1), ("assigned_content_id", assignedField s.2)] ++ joinFilename db s.2)

/-- The joined screens list of `index` (app.py lines 48-72). -/
def indexScreens (db : DB) : List Row :=
  db.screens.map (indexScreenRow db)

/-- The joined screens list of `manage_screens` (app.py lines 141-164). -/
def manageScreens (db : DB) : List Row :=
  db.screens.map (manageScreenRow db)

/-- Extract the `filename` field of a projected row, when present. -/
def rowFilename (r : Row) : Option String :=
  match r.find? (fun f => f.1 == "filename") with
  | some (_, .strV s) => some s
  | _ => none

/-! ### Helper lemmas -/

theorem lookupScreen_upsert (ss : List ScreenRec) (sid : String) (v : Option ContentId) :
    lookupScreen (upsertScreen ss sid v) sid = some v := by
  induction ss with
  | nil => simp [upsertScreen, lookupScreen]
  | cons s ss ih =>
      by_cases h : s.1 == sid
      · simp [upsertScreen, lookupScreen, h]
      · simpa [upsertScreen, lookupScreen, h] using ih

theorem lookupScreen_append_self (ss : List ScreenRec) (sid : String) (v : Option ContentId)
    (h : lookupScreen ss sid = none) :
    lookupScreen (ss ++ [(sid, v)]) sid = some v := by
  induction ss with
  | nil => simp [lookupScreen]
  | cons s ss ih =>
      by_cases hs : s.1 == sid
      · simp [lookupScreen, hs] at h
      · simp only [lookupScreen, List.find?] at h ⊢
        simp only [hs] at h ⊢
        exact ih h

theorem assign_content_fst_content (db : DB) (sid : String) (c : Option ContentId) :
    (assign_content db sid c).1.content = db.content := rfl

theorem assign_content_fst_screens (db : DB) (sid : String) (c : Option ContentId) :
    (assign_content db sid c).1.screens = upsertScreen db.screens sid c := rfl

/-- Two lists that are permutations of each other and both sorted descending on
`upload_date` coincide as soon as the `upload_date` values involved are
pairwise distinct. -/
theorem sorted_perm_nodup_dates_unique (l1 : List (ContentId × ContentItem)) :
    ∀ l2, l1.Perm l2 → List.Sorted contentGe l1 → List.Sorted contentGe l2 →
      (l1.map (fun p => p.2.upload_date)).Nodup → l1 = l2 := by
  induction l1 with
  | nil =>
      intro l2 hp _ _ _
      exact hp.nil_eq
  | cons a t1 ih =>
      intro l2 hp hs1 hs2 hnd
      cases l2 with
      | nil => exact absurd hp.eq_nil (by simp)
      | cons b t2 =>
          have hnd' : (a.2.upload_date :: t1.map (fun p => p.2.upload_date)).Nodup := by
            simpa only [List.map_cons] using hnd
          have ha2 : a ∈ b :: t2 := hp.subset (List.mem_cons_self a t1)
          have hb1 : b ∈ a :: t1 := hp.symm.subset (List.mem_cons_self b t2)
          have hab : a = b := by
            rcases List.mem_cons.mp ha2 with h1 | h1
            · exact h1
            rcases List.mem_cons.mp hb1 with h2 | h2
            · exact h2.symm
            have hd1 : a.2.upload_date ≤ b.2.upload_date :=
              List.rel_of_sorted_cons hs2 a h1
            have hd2 : b.2.upload_date ≤ a.2.upload_date :=
              List.rel_of_sorted_cons hs1 b h2
            have hmem : a.2.upload_date ∈ t1.map (fun p => p.2.upload_date) :=
              List.mem_map.mpr ⟨b, h2, le_antisymm hd2 hd1⟩
            exact absurd hmem (List.nodup_cons.mp hnd').1
          subst hab
          have htail := ih t2 hp.cons_inv hs1.of_cons hs2.of_cons
            (List.nodup_cons.mp hnd').2
          rw [htail]

/-! ### Claim theorems -/

/-- Claim C1: `delete_content` fails with the in-use outcome iff the reference
count over the screens is positive at call time; in that case the flash message
carries the blocking screen count, neither the content registry nor the blob
store is mutated, and the rendered message spells the count out; the record is
removed only when the reference count observed was zero. -/
theorem C1_delete_content_guard (db : DB) (cid : ContentId) :
    (0 < countAssignedTo db cid →
        delete_content db cid = (db, .contentInUse (countAssignedTo db cid)))
    ∧ (∀ n, (delete_content db cid).2 = .contentInUse n →
        0 < countAssignedTo db cid ∧ n = countAssignedTo db cid)
    ∧ ((delete_content db cid).1.content ≠ db.content → countAssignedTo db cid = 0)
    ∧ (∀ n, deleteContentFlash (.contentInUse n) =
        "Cannot delete content: It is currently assigned to " ++ toString n ++ " screen(s).") := by
  by_cases h : 0 < countAssignedTo db cid
  · refine ⟨fun _ => by simp [delete_content, h], ?_, ?_, fun n => rfl⟩
    · intro n hn
      simp [delete_content, h] at hn
      exact ⟨h, hn.symm⟩
    · intro hc
      simp [delete_content, h] at hc
  · have h0 : countAssignedTo db cid = 0 := by omega
    refine ⟨fun hpos => absurd hpos h, ?_, fun _ => h0, fun n => rfl⟩
    intro n hn
    rcases hfc : findContent db cid with _ | item
    · simp [delete_content, h, hfc] at hn
    · simp [delete_content, h, hfc] at hn

/-- Witness for C1 at a store whose single screen references content id 5. -/
theorem C1_delete_content_guard_w :
    delete_content ⟨[], [("s1", some 5)], []⟩ 5 =
      (⟨[], [("s1", some 5)], []⟩,
       .contentInUse (countAssignedTo ⟨[], [("s1", some 5)], []⟩ 5)) :=
  (C1_delete_content_guard ⟨[], [("s1", some 5)], []⟩ 5).1 (by decide)

/-- Claim C2: the first query of the polling API for an unknown screen id
registers the screen with no content assigned and reports registration; an
immediately following second query reports no content assigned and performs no
further state change. -/
theorem C2_auto_register_idempotent (db : DB) (sid : String)
    (h : findScreen db sid = none) :
    (get_screen_content db sid).2 =
      { screen_id := sid, content := none,
        message := some "Screen registered. No content assigned yet." }
    ∧ (get_screen_content db sid).1.screens = db.screens ++ [(sid, none)]
    ∧ findScreen (get_screen_content db sid).1 sid = some none
    ∧ get_screen_content (get_screen_content db sid).1 sid =
        ((get_screen_content db sid).1,
         { screen_id := sid, content := none,
           message := some "No content assigned yet." }) := by
  have h1 : get_screen_content db sid =
      ({ db with screens := db.screens ++ [(sid, none)] },
       { screen_id := sid, content := none,
         message := some "Screen registered. No content assigned yet." }) := by
    simp [get_screen_content, h]
  have h2a : findScreen { db with screens := db.screens ++ [(sid, none)] } sid = some none :=
    lookupScreen_append_self db.screens sid none h
  have h2 : findScreen (get_screen_content db sid).1 sid = some none := by
    rw [h1]
    exact h2a
  refine ⟨by rw [h1], by rw [h1], h2, ?_⟩
  rw [h1]
  simp [get_screen_content, h2a]

/-- Witness for C2 at the empty store and screen id s1. -/
theorem C2_auto_register_idempotent_w :
    get_screen_content (get_screen_content ⟨[], [], []⟩ "s1").1 "s1" =
      ((get_screen_content ⟨[], [], []⟩ "s1").1,
       { screen_id := "s1", content := none,
         message := some "No content assigned yet." }) :=
  (C2_auto_register_idempotent ⟨[], [], []⟩ "s1" rfl).2.2.2

/-- Counterexample for C3: at a store with one unassigned screen the home
listing rows and the management listing rows differ — the management pipeline
projection does not exclude the raw key, so Mongo includes the `_id` field by
default, while the home pipeline excludes it. -/
theorem C3_counterexample :
    indexScreens ⟨[], [("s1", none)], []⟩ ≠ manageScreens ⟨[], [("s1", none)], []⟩ := by
  decide

/-- Claim C3 (amended): the two listings use identical join stages and agree on
the projected fields — every management row is the corresponding home row with
the raw `_id` field prepended; and the polling API applies the same
dangling-reference handling: for an existing screen it mutates nothing and its
reported content filename coincides with the joined row's filename field. -/
theorem C3_amended_shared_join (db : DB) :
    (∀ s : ScreenRec, manageScreenRow db s = ("_id", BVal.strV s.1) :: indexScreenRow db s)
    ∧ (∀ sid a, findScreen db sid = some a →
        (get_screen_content db sid).1 = db
        ∧ (get_screen_content db sid).2.content.map (fun c => c.filename)
            = rowFilename (indexScreenRow db (sid, a))) := by
  refine ⟨fun s => rfl, fun sid a h => ?_⟩
  match a with
  | none =>
      refine ⟨by simp [get_screen_content, h], ?_⟩
      have hrow : rowFilename (indexScreenRow db (sid, none)) = none := rfl
      rw [hrow]
      simp [get_screen_content, h]
  | some cid =>
      rcases hfc : findContent db cid with _ | item
      · refine ⟨by simp [get_screen_content, h, hfc], ?_⟩
        have hrow : rowFilename (indexScreenRow db (sid, some cid)) = none := by
          simp only [indexScreenRow, joinFilename, hfc]
          rfl
        rw [hrow]
        simp [get_screen_content, h, hfc]
      · refine ⟨by simp [get_screen_content, h, hfc], ?_⟩
        have hrow : rowFilename (indexScreenRow db (sid, some cid)) = some item.filename := by
          simp only [indexScreenRow, joinFilename, hfc]
          rfl
        rw [hrow]
        simp [get_screen_content, h, hfc]

/-- Witness for C3 (amended) at a store with one unassigned screen. -/
theorem C3_amended_shared_join_w :
    (get_screen_content ⟨[], [("s1", none)], []⟩ "s1").1 = ⟨[], [("s1", none)], []⟩ :=
  ((C3_amended_shared_join ⟨[], [("s1", none)], []⟩).2 "s1" none rfl).1

/-- Claim C4: when a screen's assignment points at no existing content item,
the polling API returns `content = None` together with a warning message, and
the store — in particular the stale pointer — is left untouched. -/
theorem C4_dangling_reported_not_repaired (db : DB) (sid : String) (cid : ContentId)
    (h1 : findScreen db sid = some (some cid)) (h2 : findContent db cid = none) :
    get_screen_content db sid =
      (db, { screen_id := sid, content := none,
             message := some "Assigned content not found. Content may have been deleted." }) := by
  simp [get_screen_content, h1, h2]

/-- Witness for C4 at a store whose screen s1 dangles on content id 7. -/
theorem C4_dangling_reported_not_repaired_w :
    get_screen_content ⟨[], [("s1", some 7)], []⟩ "s1" =
      (⟨[], [("s1", some 7)], []⟩,
       { screen_id := "s1", content := none,
         message := some "Assigned content not found. Content may have been deleted." }) :=
  C4_dangling_reported_not_repaired ⟨[], [("s1", some 7)], []⟩ "s1" 7 rfl rfl

/-- Claim C5: `assign_content` re-reads the stored record after the upsert and
compares it with the intended value; whenever the stored value differs from the
intended one the verify block reports verification failure, and in a sequential
execution the re-read recovers exactly the written value, so the operation
reports success (assignment or unassignment according to the request). -/
theorem C5_assign_verifies (db : DB) (sid : String) (c : Option ContentId) :
    (∀ v : Option ContentId, v ≠ c → verifyAssign sid c (some v) = .verificationFailed sid)
    ∧ (assign_content db sid c).2 = verifyAssign sid c (some c)
    ∧ (c.isSome → (assign_content db sid c).2 = .assigned sid)
    ∧ (c.isNone → (assign_content db sid c).2 = .unassigned sid) := by
  have hre : (assign_content db sid c).2 =
      verifyAssign sid c (lookupScreen (upsertScreen db.screens sid c) sid) := rfl
  have hstored : (assign_content db sid c).2 = verifyAssign sid c (some c) := by
    rw [hre, lookupScreen_upsert]
  refine ⟨?_, hstored, ?_, ?_⟩
  · intro v hv
    match c, v with
    | none, none => exact absurd rfl hv
    | none, some b => simp [verifyAssign]
    | some a, none => simp [verifyAssign]
    | some a, some b =>
        have hab : (b == a) = false := by
          simp only [beq_eq_false_iff_ne, ne_eq]
          intro hba
          exact hv (by simp [hba])
        simp [verifyAssign, hab]
  · intro hc
    match c, hc with
    | some a, _ => rw [hstored]; simp [verifyAssign]
  · intro hc
    match c, hc with
    | none, _ => rw [hstored]; simp [verifyAssign]

/-- Witness for C5: a mismatching stored value is reported as verification
failure, and a concrete sequential assignment reports success. -/
theorem C5_assign_verifies_w :
    verifyAssign "s1" (some 3) (some (some 4)) = .verificationFailed "s1"
    ∧ (assign_content ⟨[], [], []⟩ "s1" (some 3)).2 = .assigned "s1" :=
  ⟨(C5_assign_verifies ⟨[], [], []⟩ "s1" (some 3)).1 (some 4) (by decide),
   (C5_assign_verifies ⟨[], [], []⟩ "s1" (some 3)).2.2.1 rfl⟩

/-- Claim C6: whatever the prior state of the screen, unassigning it and then
polling it yields a stored assignment of `None` and a response with
`content = None` and the no-content message. -/
theorem C6_unassign_then_resolve (db : DB) (sid : String) :
    findScreen (assign_content db sid none).1 sid = some none
    ∧ get_screen_content (assign_content db sid none).1 sid =
        ((assign_content db sid none).1,
         { screen_id := sid, content := none,
           message := some "No content assigned yet." }) := by
  have h : findScreen (assign_content db sid none).1 sid = some none := by
    rw [findScreen, assign_content_fst_screens]
    exact lookupScreen_upsert db.screens sid none
  exact ⟨h, by simp [get_screen_content, h]⟩

/-- Claim C7: assigning a content id that no content item bears succeeds at the
screen-registry layer (no foreign-key check), and the subsequent poll resolves
to the dangling state: `content = None` with the warning message. -/
theorem C7_assign_no_fk (db : DB) (sid : String) (cid : ContentId)
    (h : findContent db cid = none) :
    (assign_content db sid (some cid)).2 = .assigned sid
    ∧ findScreen (assign_content db sid (some cid)).1 sid = some (some cid)
    ∧ get_screen_content (assign_content db sid (some cid)).1 sid =
        ((assign_content db sid (some cid)).1,
         { screen_id := sid, content := none,
           message := some "Assigned content not found. Content may have been deleted." }) := by
  have hs : findScreen (assign_content db sid (some cid)).1 sid = some (some cid) := by
    rw [findScreen, assign_content_fst_screens]
    exact lookupScreen_upsert db.screens sid (some cid)
  have hc : findContent (assign_content db sid (some cid)).1 cid = none := by
    rw [findContent, assign_content_fst_content]
    exact h
  have hmsg : (assign_content db sid (some cid)).2 =
      verifyAssign sid (some cid) (lookupScreen (upsertScreen db.screens sid (some cid)) sid) := rfl
  refine ⟨?_, hs, ?_⟩
  · rw [hmsg, lookupScreen_upsert]
    simp [verifyAssign]
  · simp [get_screen_content, hs, hc]

/-- Witness for C7 at the empty store, screen s1 and the absent content id 7. -/
theorem C7_assign_no_fk_w :
    (assign_content ⟨[], [], []⟩ "s1" (some 7)).2 = AssignResult.assigned "s1" :=
  (C7_assign_no_fk ⟨[], [], []⟩ "s1" 7 rfl).1

/-- Counterexample for C8: at a store holding two items with equal
`upload_date`, the reversed order is an admissible result of the backing
store's sort — descending and a permutation of the collection — yet it differs
from the insertion order, so the listing is not uniquely the ties-by-insertion
order the claim asserts; the program leaves the tie order undetermined. -/
theorem C8_counterexample :
    isContentListing
      ⟨[(1, ⟨"x.png", "/static/uploads/x.png", "image/png", 5⟩),
        (2, ⟨"y.png", "/static/uploads/y.png", "image/png", 5⟩)], [], []⟩
      [(2, ⟨"y.png", "/static/uploads/y.png", "image/png", 5⟩),
       (1, ⟨"x.png", "/static/uploads/x.png", "image/png", 5⟩)]
    ∧ ([(2, ⟨"y.png", "/static/uploads/y.png", "image/png", 5⟩),
        (1, ⟨"x.png", "/static/uploads/x.png", "image/png", 5⟩)] :
        List (ContentId × ContentItem))
      ≠ [(1, ⟨"x.png", "/static/uploads/x.png", "image/png", 5⟩),
         (2, ⟨"y.png", "/static/uploads/y.png", "image/png", 5⟩)] := by
  decide

/-- Claim C8 (amended): every admissible content listing is a permutation of
the stored items sorted by `upload_date` descending, and such a listing always
exists; the relative order of items with equal `upload_date` is not determined
by the program, but when the stored `upload_date` values are pairwise distinct
the admissible listing is unique — in particular for the tie-free run
A(t=1), B(t=3), C(t=2) every admissible listing is exactly [B, C, A]. -/
theorem C8_amended_listing_sorted :
    (∀ db : DB, isContentListing db (List.insertionSort contentGe db.content))
    ∧ (∀ (db : DB) (out out2 : List (ContentId × ContentItem)),
        isContentListing db out → isContentListing db out2 →
        (db.content.map (fun p => p.2.upload_date)).Nodup → out = out2)
    ∧ (∀ out, isContentListing
          ⟨[(1, ⟨"a.png", "/static/uploads/a.png", "image/png", 1⟩),
            (2, ⟨"b.png", "/static/uploads/b.png", "image/png", 3⟩),
            (3, ⟨"c.png", "/static/uploads/c.png", "image/png", 2⟩)], [], []⟩ out →
        out = [(2, ⟨"b.png", "/static/uploads/b.png", "image/png", 3⟩),
               (3, ⟨"c.png", "/static/uploads/c.png", "image/png", 2⟩),
               (1, ⟨"a.png", "/static/uploads/a.png", "image/png", 1⟩)]) := by
  have huniq : ∀ (db : DB) (out out2 : List (ContentId × ContentItem)),
      isContentListing db out → isContentListing db out2 →
      (db.content.map (fun p => p.2.upload_date)).Nodup → out = out2 := by
    intro db out out2 h1 h2 hnd
    have hp : out.Perm out2 := h1.1.trans h2.1.symm
    have hndout : (out.map (fun p => p.2.upload_date)).Nodup :=
      (h1.1.map (fun p => p.2.upload_date)).nodup_iff.mpr hnd
    exact sorted_perm_nodup_dates_unique out out2 hp h1.2 h2.2 hndout
  refine ⟨?_, huniq, ?_⟩
  · intro db
    exact ⟨List.perm_insertionSort contentGe db.content,
           List.sorted_insertionSort contentGe db.content⟩
  · intro out hout
    exact huniq _ out _ hout (by decide) (by decide)

/-- Witness for C8 (amended): at the tie-free three-item store, the uniqueness
part forces the concrete admissible listing [B, C, A] to coincide with a
computed admissible listing of the same collection. -/
theorem C8_amended_listing_sorted_w :
    [(2, ⟨"b.png", "/static/uploads/b.png", "image/png", 3⟩),
     (3, ⟨"c.png", "/static/uploads/c.png", "image/png", 2⟩),
     (1, ⟨"a.png", "/static/uploads/a.png", "image/png", 1⟩)]
    = List.insertionSort contentGe
        [(1, ⟨"a.png", "/static/uploads/a.png", "image/png", 1⟩),
         (2, ⟨"b.png", "/static/uploads/b.png", "image/png", 3⟩),
         (3, ⟨"c.png", "/static/uploads/c.png", "image/png", 2⟩)] :=
  C8_amended_listing_sorted.2.1
    (⟨[(1, ⟨"a.png", "/static/uploads/a.png", "image/png", 1⟩),
       (2, ⟨"b.png", "/static/uploads/b.png", "image/png", 3⟩),
       (3, ⟨"c.png", "/static/uploads/c.png", "image/png", 2⟩)], [], []⟩ : DB)
    ([(2, ⟨"b.png", "/static/uploads/b.png", "image/png", 3⟩),
      (3, ⟨"c.png", "/static/uploads/c.png", "image/png", 2⟩),
      (1, ⟨"a.png", "/static/uploads/a.png", "image/png", 1⟩)] :
      List (ContentId × ContentItem))
    (List.insertionSort contentGe
      [(1, ⟨"a.png", "/static/uploads/a.png", "image/png", 1⟩),
       (2, ⟨"b.png", "/static/uploads/b.png", "image/png", 3⟩),
       (3, ⟨"c.png", "/static/uploads/c.png", "image/png", 2⟩)])
    (by decide) (by decide) (by decide)

/-- Claim C9: deleting a screen never touches the content registry or the blob
store, whatever the prior store state. -/
theorem C9_delete_screen_frame (db : DB) (sid : String) :
    (delete_screen db sid).1.content = db.content
    ∧ (delete_screen db sid).1.blobs = db.blobs :=
  ⟨rfl, rfl⟩

/-- Counterexample for C10: for a well-formed content id with no content
record, the not-found message is not always surfaced — when a screen dangles on
that id the route reports the in-use message instead. -/
theorem C10_counterexample :
    findContent ⟨[], [("kiosk", some 9)], []⟩ 9 = none
    ∧ (delete_content ⟨[], [("kiosk", some 9)], []⟩ 9).2 = .contentInUse 1
    ∧ (delete_content ⟨[], [("kiosk", some 9)], []⟩ 9).2 ≠ .notFound := by
  decide

/-- Claim C10 (amended): for a well-formed content id with no existing content
record, `delete_content` performs no mutation on either registry or the blob
store; it surfaces the not-found message when no screen references the id, and
the in-use message carrying the count when screens dangling-reference it. -/
theorem C10_amended_missing_content (db : DB) (cid : ContentId)
    (h : findContent db cid = none) :
    (delete_content db cid).1 = db
    ∧ (countAssignedTo db cid = 0 → (delete_content db cid).2 = .notFound)
    ∧ (0 < countAssignedTo db cid →
        (delete_content db cid).2 = .contentInUse (countAssignedTo db cid))
    ∧ deleteContentFlash .notFound = "Content not found." := by
  by_cases hp : 0 < countAssignedTo db cid
  · exact ⟨by simp [delete_content, hp], fun h0 => absurd hp (by omega),
           fun _ => by simp [delete_content, hp], rfl⟩
  · exact ⟨by simp [delete_content, hp, h], fun _ => by simp [delete_content, hp, h],
           fun hpos => absurd hpos hp, rfl⟩

/-- Witness for C10 (amended) at the empty store and content id 3. -/
theorem C10_amended_missing_content_w :
    (delete_content ⟨[], [], []⟩ 3).2 = DeleteContentResult.notFound :=
  (C10_amended_missing_content ⟨[], [], []⟩ 3 rfl).2.1 rfl

end Signage
